import Mathlib

/-!
Shallow embedding of the RFID card-writer sketch (`src/src/secret_sauce.h`).

The sketch reads one `NAME:ID` line from the serial console, stores it in the
globals `inputName`/`inputID`/`readyToWrite`, and — once a new card is present —
authenticates and writes block 4 (name) and block 8 (id) through the MFRC522
driver.

Modelling choices:
  * Arduino `String` values are `List Char`; the 16-byte block buffer is a
    `List (Option Nat)` where `none` marks an uninitialized byte (the source
    leaves the tail of the buffer uninitialized for short strings).
  * The hardware driver (MFRC522) is a record of boolean outcomes
    (`newCardPresent`, `readCardSerial`, per-block `authOK`/`writeOK`); each
    driver invocation is recorded in a `DriverCall` trace, and every
    `Serial.print` line in a `List String` output trace.
  * One invocation of `loop` takes the optional serial line available in that
    iteration (`none` = `Serial.available()` returned false).
  * The source file is missing one closing brace (11 `{` against 10 `}`).
    Pairing braces literally — completing the missing brace at end of file —
    nests the `if (readyToWrite)` card block inside the `if (Serial.available())`
    block; that literal structure is `loopNested` below.  The indentation, the
    placement of the `// Wait for card if data is ready` comment, and the
    claimed line range of `loop` all put the card block at the top level of
    `loop()`; that intended structure is `loop` below.
-/

/-- The C `isspace` class used by Arduino `String::trim`. -/
def isSpaceChar (c : Char) : Bool :=
  c = ' ' || c = '\t' || c = '\n' || c = Char.ofNat 11 || c = Char.ofNat 12 || c = '\r'

/-- Arduino `String::trim`: drop leading and trailing `isspace` characters. -/
def trim (l : List Char) : List Char :=
  ((l.dropWhile isSpaceChar).reverse.dropWhile isSpaceChar).reverse

/-- Arduino `String::indexOf`: index of the first occurrence, `-1` if absent. -/
def indexOf (l : List Char) (c : Char) : Int :=
  match l.findIdx? (fun x => x == c) with
  | some i => (i : Int)
  | none => -1

/-- Arduino `String::getBytes(buf, bufsize)` with `index = 0` (from the Arduino
core `WString.cpp`): copies `n = min (bufsize-1) len` characters, writes a `0`
terminator at position `n`, and leaves positions `n+1 .. bufsize-1` untouched
(modelled as `none`, the buffer being stack-allocated and uninitialized). -/
def getBytes (data : List Nat) (bufsize : Nat) : List (Option Nat) :=
  let n := min (bufsize - 1) data.length
  (data.take n).map some ++ [some 0] ++ List.replicate (bufsize - 1 - n) none

/-- One call into the MFRC522 driver, in the order the sketch makes them. -/
inductive DriverCall where
  | isNewCardPresent
  | readCardSerial
  | authenticate (blockAddr : Nat)
  | mifareWrite (blockAddr : Nat) (buffer : List (Option Nat))
  | haltA
  | stopCrypto
  | delayMs (ms : Nat)
  deriving DecidableEq, Repr

/-- Outcomes the MFRC522 driver returns in one card session. -/
structure Driver where
  newCardPresent : Bool
  readCardSerial : Bool
  authOK : Nat → Bool
  writeOK : Nat → Bool

/-- The sketch's global mutable state: `inputName`, `inputID`, `readyToWrite`,
plus the tag's block contents (for stating that failed writes leave the tag
unchanged). -/
structure ProgState where
  inputName : List Char
  inputID : List Char
  readyToWrite : Bool
  blocks : Nat → List (Option Nat)

/-- `writeBlock(int blockAddr, String data)`: convert `data` with
`getBytes(buffer, 16)`, authenticate with key A, and on success write the
16-byte buffer.  Returns the updated tag blocks, the serial output lines, and
the driver-call trace. -/
def writeBlock (drv : Driver) (blocks : Nat → List (Option Nat)) (blockAddr : Nat)
    (data : List Char) : (Nat → List (Option Nat)) × List String × List DriverCall :=
  let buffer := getBytes (data.map Char.toNat) 16
  if drv.authOK blockAddr = false then
    (blocks, ["Auth failed for block " ++ toString blockAddr],
     [DriverCall.authenticate blockAddr])
  else if drv.writeOK blockAddr = false then
    (blocks, ["Write failed for block " ++ toString blockAddr],
     [DriverCall.authenticate blockAddr, DriverCall.mifareWrite blockAddr buffer])
  else
    (fun b => if b = blockAddr then buffer else blocks b,
     ["✔ Block " ++ toString blockAddr ++ " written."],
     [DriverCall.authenticate blockAddr, DriverCall.mifareWrite blockAddr buffer])

/-- The serial-input block of `loop()` applied to one available line: trim,
find the first `:`, and if `sep > 0 && sep < line.length()-1` assign
`inputName`/`inputID` and (the inner length check) set `readyToWrite`. -/
def handleLine (raw : List Char) (st : ProgState) : ProgState × List String :=
  let line := trim raw
  let sep := indexOf line ':'
  if 0 < sep ∧ sep < (line.length : Int) - 1 then
    let inputName := line.take sep.toNat
    let inputID := line.drop (sep.toNat + 1)
    if 0 < inputName.length ∧ 0 < inputID.length then
      ({ st with inputName := inputName, inputID := inputID, readyToWrite := true },
       ["✅ Data captured:",
        "  Name: " ++ String.mk inputName,
        "  ID  : " ++ String.mk inputID,
        "Now place a card on the reader..."])
    else
      ({ st with inputName := inputName, inputID := inputID },
       ["⚠️ Invalid format! Use NAME:ID"])
  else
    (st, [])

/-- The `if (Serial.available())` guard: `none` means no input this iteration. -/
def handleSerial (input : Option (List Char)) (st : ProgState) : ProgState × List String :=
  match input with
  | none => (st, [])
  | some raw => handleLine raw st

/-- The `if (readyToWrite)` block of `loop()`: poll for a new card (short-circuit:
`PICC_ReadCardSerial` is only called when `PICC_IsNewCardPresent` succeeded),
and on detection write block 4 (name) then block 8 (id), print the overall
success message, clear `readyToWrite`, re-prompt, halt the tag, stop crypto,
and delay 2000 ms. -/
def cardCycle (drv : Driver) (st : ProgState) : ProgState × List String × List DriverCall :=
  if drv.newCardPresent = false then
    (st, [], [DriverCall.isNewCardPresent])
  else if drv.readCardSerial = false then
    (st, [], [DriverCall.isNewCardPresent, DriverCall.readCardSerial])
  else
    let r4 := writeBlock drv st.blocks 4 st.inputName
    let r8 := writeBlock drv r4.1 8 st.inputID
    ({ st with blocks := r8.1, readyToWrite := false },
     r4.2.1 ++ r8.2.1 ++
       ["✅ Data written successfully!",
        "Enter new NAME:ID for another card...",
        "--------------------------------"],
     [DriverCall.isNewCardPresent, DriverCall.readCardSerial] ++ r4.2.2 ++ r8.2.2 ++
       [DriverCall.haltA, DriverCall.stopCrypto, DriverCall.delayMs 2000])

/-- One iteration of `loop()` in its intended structure (matching the source's
indentation and comments): handle serial input if available, then — whenever
`readyToWrite` holds — run the card-detect-and-write cycle. -/
def loop (drv : Driver) (input : Option (List Char)) (st : ProgState) :
    ProgState × List String × List DriverCall :=
  let s1 := handleSerial input st
  if s1.1.readyToWrite then
    let r := cardCycle drv s1.1
    (r.1, s1.2 ++ r.2.1, r.2.2)
  else
    (s1.1, s1.2, [])

/-- One iteration of `loop()` under the literal brace pairing of the source
file (which is missing one closing brace; completing it at end of file nests
the whole `if (readyToWrite)` card block inside the `if (Serial.available())`
block): when no serial input is available the iteration does nothing at all. -/
def loopNested (drv : Driver) (input : Option (List Char)) (st : ProgState) :
    ProgState × List String × List DriverCall :=
  match input with
  | none => (st, [], [])
  | some raw =>
    let s1 := handleLine raw st
    if s1.1.readyToWrite then
      let r := cardCycle drv s1.1
      (r.1, s1.2 ++ r.2.1, r.2.2)
    else
      (s1.1, s1.2, [])

/-- Run `loop` over a sequence of iterations, each with its own driver outcome
and optional serial line; concatenate the output and call traces. -/
def runLoop (steps : List (Driver × Option (List Char))) (st : ProgState) :
    ProgState × List String × List DriverCall :=
  match steps with
  | [] => (st, [], [])
  | p :: rest =>
    let r1 := loop p.1 p.2 st
    let r2 := runLoop rest r1.1
    (r2.1, r1.2.1 ++ r2.2.1, r1.2.2 ++ r2.2.2)

/-- Whether the iteration's serial input (if any) passes the outer parse guard
`sep > 0 && sep < line.length()-1`.  Parse success depends only on the line. -/
def inputParses : Option (List Char) → Bool
  | none => false
  | some raw =>
    decide (0 < indexOf (trim raw) ':' ∧
            indexOf (trim raw) ':' < ((trim raw).length : Int) - 1)

/-- Recognizes the `PCD_Authenticate` calls in a trace (each `writeBlock`
invocation begins with exactly one such call). -/
def isAuthCall : DriverCall → Bool
  | DriverCall.authenticate _ => true
  | _ => false

/-- A driver whose every operation succeeds. -/
def drvAllOK : Driver :=
  { newCardPresent := true, readCardSerial := true,
    authOK := fun _ => true, writeOK := fun _ => true }

/-- A tag whose blocks all start zero-filled. -/
def zeroBlocks : Nat → List (Option Nat) :=
  fun _ => List.replicate 16 (some 0)

/-- A state with a pending record, as left by a successfully parsed line. -/
def stPending : ProgState :=
  { inputName := ['A'], inputID := ['B'], readyToWrite := true, blocks := zeroBlocks }

/-- A state with no pending record. -/
def stIdle : ProgState :=
  { inputName := [], inputID := [], readyToWrite := false, blocks := zeroBlocks }

/-! ### Helper lemmas -/

/-- Every `writeBlock` invocation issues exactly one `PCD_Authenticate` call,
for its own block address, whatever the auth/write outcomes. -/
theorem writeBlock_filter_auth (drv : Driver) (blocks : Nat → List (Option Nat))
    (blockAddr : Nat) (data : List Char) :
    ((writeBlock drv blocks blockAddr data).2.2).filter isAuthCall =
      [DriverCall.authenticate blockAddr] := by
  unfold writeBlock
  cases h1 : drv.authOK blockAddr <;> cases h2 : drv.writeOK blockAddr <;>
    simp [isAuthCall, h1, h2]

/-- The three invalid-format cases (no `:`, first `:` at position 0, first `:`
at the last position of the trimmed line) are exactly the lines rejected by the
outer guard `sep > 0 && sep < line.length()-1`. -/
theorem guard_false_of_invalid (raw : List Char)
    (h : ':' ∉ trim raw ∨ (trim raw).findIdx? (fun x => x == ':') = some 0 ∨
         (trim raw).findIdx? (fun x => x == ':') = some ((trim raw).length - 1)) :
    ¬ (0 < indexOf (trim raw) ':' ∧
       indexOf (trim raw) ':' < ((trim raw).length : Int) - 1) := by
  rcases h with h | h | h
  · have hnone : (trim raw).findIdx? (fun x => x == ':') = none := by
      rw [List.findIdx?_eq_none_iff]
      intro x hx
      exact beq_eq_false_iff_ne.mpr (fun he => h (he ▸ hx))
    simp [indexOf, hnone]
  · simp [indexOf, h]
  · have hlen : (trim raw).length - 1 < (trim raw).length :=
      (List.findIdx?_eq_some_iff_findIdx_eq.mp h).1
    rintro ⟨h1, h2⟩
    simp only [indexOf, h] at h2
    omega

/-- A line rejected by the outer guard leaves the state untouched and prints
nothing. -/
theorem handleLine_not_parsed (raw : List Char) (st : ProgState)
    (h : ¬ (0 < indexOf (trim raw) ':' ∧
            indexOf (trim raw) ':' < ((trim raw).length : Int) - 1)) :
    handleLine raw st = (st, []) := by
  simp only [handleLine, if_neg h]

/-- A line accepted by the outer guard assigns the untrimmed substrings around
the first `:` of the trimmed line, sets `readyToWrite`, and echoes them. -/
theorem handleLine_parsed (raw : List Char) (st : ProgState) (i : Nat)
    (hfind : (trim raw).findIdx? (fun x => x == ':') = some i)
    (h0 : 0 < i) (h1 : i + 1 < (trim raw).length) :
    handleLine raw st =
      ({ st with inputName := (trim raw).take i, inputID := (trim raw).drop (i + 1),
                 readyToWrite := true },
       ["✅ Data captured:",
        "  Name: " ++ String.mk ((trim raw).take i),
        "  ID  : " ++ String.mk ((trim raw).drop (i + 1)),
        "Now place a card on the reader..."]) := by
  have hsep : indexOf (trim raw) ':' = (i : Int) := by
    simp [indexOf, hfind]
  have hg : 0 < (i : Int) ∧ (i : Int) < ((trim raw).length : Int) - 1 := by
    constructor <;> omega
  have hinner : 0 < ((trim raw).take i).length ∧ 0 < ((trim raw).drop (i + 1)).length := by
    constructor
    · simp [List.length_take]
      omega
    · simp [List.length_drop]
      omega
  simp only [handleLine, hsep, Int.toNat_natCast]
  rw [if_pos hg, if_pos hinner]

/-- An iteration with no pending record and no successfully parsing input does
nothing at all: no state change, no output, no driver call. -/
theorem loop_no_pending (drv : Driver) (input : Option (List Char)) (st : ProgState)
    (h1 : st.readyToWrite = false) (h2 : inputParses input = false) :
    loop drv input st = (st, [], []) := by
  cases input with
  | none => simp [loop, handleSerial, h1]
  | some raw =>
    have hg : ¬ (0 < indexOf (trim raw) ':' ∧
        indexOf (trim raw) ':' < ((trim raw).length : Int) - 1) := by
      simpa [inputParses] using h2
    simp [loop, handleSerial, handleLine_not_parsed raw st hg, h1]

/-- Iterating from a non-pending state over inputs that never parse leaves the
state fixed with an empty output and driver trace. -/
theorem runLoop_no_pending (steps : List (Driver × Option (List Char))) (st : ProgState)
    (h1 : st.readyToWrite = false) (h2 : ∀ p ∈ steps, inputParses p.2 = false) :
    runLoop steps st = (st, [], []) := by
  induction steps with
  | nil => rfl
  | cons p rest ih =>
    have hl := loop_no_pending p.1 p.2 st h1 (h2 p (List.mem_cons_self p rest))
    have hr := ih (fun q hq => h2 q (List.mem_cons_of_mem p hq))
    simp [runLoop, hl, hr]

/-! ### Claim theorems -/

/-- C1 (code bug): the claim — whenever `ready == true` the card presence
check runs once per loop iteration, independent of serial-input availability —
matches the source's indentation, comments and spec, but not its literal brace
pairing: the file is one closing brace short, and completing it nests the card
block inside `if (Serial.available())`.  At the failing input (pending record,
no serial input, card present) the literal structure `loopNested` makes no
driver call at all and leaves the state unchanged, while the intended
structure `loop` performs the full detect-and-write cycle and clears
`readyToWrite`. -/
theorem literal_brace_nesting_skips_card_check :
    loopNested drvAllOK none stPending = (stPending, [], []) ∧
    ((loop drvAllOK none stPending).2.2).filter isAuthCall =
      [DriverCall.authenticate 4, DriverCall.authenticate 8] ∧
    (loop drvAllOK none stPending).1.readyToWrite = false := by
  refine ⟨rfl, ?_, rfl⟩
  decide

/-- C2 (counterexample): on the unparsable line `NoColonHere` the serial block
emits no output at all — in particular no warning — and returns the state
unchanged, refuting the claim that a warning is emitted for every line that
fails to parse. -/
theorem invalid_line_emits_no_warning_cex :
    (handleLine ("NoColonHere".toList) stPending).2 = [] ∧
    (handleLine ("NoColonHere".toList) stPending).1 = stPending := by
  exact ⟨rfl, rfl⟩

/-- C2 (amended): for every input line that fails to parse (trimmed line with
no `:`, first `:` at position 0, or first `:` at the last character), the
serial block emits nothing — the warning branch is never taken — and the
existing pending record (name, id, ready) is left untouched. -/
theorem invalid_line_silent_state_unchanged (raw : List Char) (st : ProgState)
    (h : ':' ∉ trim raw ∨ (trim raw).findIdx? (fun x => x == ':') = some 0 ∨
         (trim raw).findIdx? (fun x => x == ':') = some ((trim raw).length - 1)) :
    handleLine raw st = (st, []) :=
  handleLine_not_parsed raw st (guard_false_of_invalid raw h)

/-- Witness for the amended C2 at the concrete line `NoColonHere`. -/
theorem invalid_line_silent_state_unchanged_witness :
    (':' ∉ trim ("NoColonHere".toList) ∨
     (trim ("NoColonHere".toList)).findIdx? (fun x => x == ':') = some 0 ∨
     (trim ("NoColonHere".toList)).findIdx? (fun x => x == ':') =
       some ((trim ("NoColonHere".toList)).length - 1)) ∧
    handleLine ("NoColonHere".toList) stIdle = (stIdle, []) :=
  ⟨Or.inl (by decide),
   invalid_line_silent_state_unchanged ("NoColonHere".toList) stIdle (Or.inl (by decide))⟩

/-- C3 (counterexample): for the 17-byte datum `AAAAAAAAAAAAAAAAA`, the buffer
handed to `MIFARE_Write` is the first 15 bytes followed by a 0 terminator —
not the first 16 bytes of the text, as the claim states. -/
theorem buffer_not_first_16_bytes_cex :
    (writeBlock drvAllOK zeroBlocks 4 (List.replicate 17 'A')).2.2 =
      [DriverCall.authenticate 4,
       DriverCall.mifareWrite 4 (List.replicate 15 (some 65) ++ [some 0])] ∧
    ((List.replicate 17 'A').map Char.toNat).take 16 = List.replicate 16 65 ∧
    List.replicate 15 (some 65) ++ [some 0] ≠
      (List.replicate 16 65).map (some : Nat → Option Nat) := by
  refine ⟨by decide, by decide, by decide⟩

/-- C3 (amended): for every data string longer than 16 bytes, `writeBlock`
silently truncates it: `getBytes(buffer, 16)` fills the buffer with the first
15 bytes of the text plus a 0 terminator (Arduino `getBytes` copies at most
`bufsize - 1` characters), no error is raised, and the call behaves exactly as
if only the first 15 bytes had been passed. -/
theorem writeBlock_truncates_15_nul (drv : Driver) (blocks : Nat → List (Option Nat))
    (blockAddr : Nat) (data : List Char) (h : 16 < data.length) :
    getBytes (data.map Char.toNat) 16 =
      ((data.map Char.toNat).take 15).map some ++ [some 0] ∧
    writeBlock drv blocks blockAddr data = writeBlock drv blocks blockAddr (data.take 15) := by
  have hbuf : ∀ l : List Char, 15 ≤ l.length →
      getBytes (l.map Char.toNat) 16 = ((l.map Char.toNat).take 15).map some ++ [some 0] := by
    intro l hl
    have hmin : min 15 l.length = 15 := Nat.min_eq_left hl
    simp [getBytes, hmin]
  have h15 : 15 ≤ data.length := by omega
  have h15' : 15 ≤ (data.take 15).length := by
    simp [List.length_take]
    omega
  have heq : getBytes ((data.take 15).map Char.toNat) 16 = getBytes (data.map Char.toNat) 16 := by
    rw [hbuf data h15, hbuf (data.take 15) h15']
    simp [List.map_take, List.take_take]
  exact ⟨hbuf data h15, by simp only [writeBlock, heq]⟩

/-- Witness for the amended C3 at a concrete 17-byte datum. -/
theorem writeBlock_truncates_15_nul_witness :
    16 < (List.replicate 17 'A').length ∧
    (getBytes ((List.replicate 17 'A').map Char.toNat) 16 =
       (((List.replicate 17 'A').map Char.toNat).take 15).map some ++ [some 0] ∧
     writeBlock drvAllOK zeroBlocks 8 (List.replicate 17 'A') =
       writeBlock drvAllOK zeroBlocks 8 ((List.replicate 17 'A').take 15)) :=
  ⟨by decide,
   writeBlock_truncates_15_nul drvAllOK zeroBlocks 8 (List.replicate 17 'A') (by decide)⟩

/-- C4 (counterexample): on the line `a : b` parsing succeeds, but the captured
name is `"a "` — it keeps its trailing space, so the fields are not
individually trimmed of leading/trailing whitespace as the claim states (only
the whole line is trimmed before splitting). -/
theorem parsed_name_not_trimmed_cex :
    (handleLine ("a : b".toList) stIdle).1.readyToWrite = true ∧
    (handleLine ("a : b".toList) stIdle).1.inputName = ['a', ' '] ∧
    (handleLine ("a : b".toList) stIdle).1.inputID = [' ', 'b'] ∧
    (handleLine ("a : b".toList) stIdle).1.inputName ≠
      trim ((handleLine ("a : b".toList) stIdle).1.inputName) := by
  refine ⟨rfl, by decide, by decide, by decide⟩

/-- C4 (amended): for every input line whose trimmed form has its first `:` at
position `i` with non-empty text on both sides (`0 < i` and `i + 1 < length`),
parsing succeeds and yields `name` = text before the first `:` and `id` = text
after the first `:` of the trimmed line, with no further per-field trimming. -/
theorem parse_success_fields_untrimmed (raw : List Char) (st : ProgState) (i : Nat)
    (hfind : (trim raw).findIdx? (fun x => x == ':') = some i)
    (h0 : 0 < i) (h1 : i + 1 < (trim raw).length) :
    handleLine raw st =
      ({ st with inputName := (trim raw).take i, inputID := (trim raw).drop (i + 1),
                 readyToWrite := true },
       ["✅ Data captured:",
        "  Name: " ++ String.mk ((trim raw).take i),
        "  ID  : " ++ String.mk ((trim raw).drop (i + 1)),
        "Now place a card on the reader..."]) :=
  handleLine_parsed raw st i hfind h0 h1

/-- Witness for the amended C4 at the concrete line `Dr. Smith:EMP001`. -/
theorem parse_success_fields_untrimmed_witness :
    (trim ("Dr. Smith:EMP001".toList)).findIdx? (fun x => x == ':') = some 9 ∧
    0 < 9 ∧ 9 + 1 < (trim ("Dr. Smith:EMP001".toList)).length ∧
    handleLine ("Dr. Smith:EMP001".toList) stIdle =
      ({ stIdle with
          inputName := (trim ("Dr. Smith:EMP001".toList)).take 9,
          inputID := (trim ("Dr. Smith:EMP001".toList)).drop 10,
          readyToWrite := true },
       ["✅ Data captured:",
        "  Name: " ++ String.mk ((trim ("Dr. Smith:EMP001".toList)).take 9),
        "  ID  : " ++ String.mk ((trim ("Dr. Smith:EMP001".toList)).drop 10),
        "Now place a card on the reader..."]) :=
  ⟨by decide, by decide, by decide,
   parse_success_fields_untrimmed ("Dr. Smith:EMP001".toList) stIdle 9
     (by decide) (by decide) (by decide)⟩

/-- C5: if authentication fails for a block, `writeBlock` reports the auth
failure for that block address, issues no `MIFARE_Write` call, and leaves the
tag's stored content (all blocks) unchanged. -/
theorem auth_failure_no_write_blocks_unchanged (drv : Driver)
    (blocks : Nat → List (Option Nat)) (blockAddr : Nat) (data : List Char)
    (h : drv.authOK blockAddr = false) :
    writeBlock drv blocks blockAddr data =
      (blocks, ["Auth failed for block " ++ toString blockAddr],
       [DriverCall.authenticate blockAddr]) := by
  simp [writeBlock, h]

/-- A driver whose authentication always fails (write would succeed). -/
def drvAuthFail : Driver :=
  { newCardPresent := true, readCardSerial := true,
    authOK := fun _ => false, writeOK := fun _ => true }

/-- Witness for C5 at block 4 with an auth-refusing driver. -/
theorem auth_failure_no_write_blocks_unchanged_witness :
    drvAuthFail.authOK 4 = false ∧
    writeBlock drvAuthFail zeroBlocks 4 ['A'] =
      (zeroBlocks, ["Auth failed for block " ++ toString 4],
       [DriverCall.authenticate 4]) :=
  ⟨rfl, auth_failure_no_write_blocks_unchanged drvAuthFail zeroBlocks 4 ['A'] rfl⟩

/-- C6: on every card detection with a pending record, the iteration makes
exactly one `writeBlock` invocation for block 4 and then exactly one for
block 8, in that order — visible as exactly the two authentication calls in
the driver trace — for every driver outcome, i.e. regardless of whether
block 4's authentication or write succeeded. -/
theorem card_cycle_writes_block4_then_block8 (drv : Driver) (input : Option (List Char))
    (st : ProgState) (hready : (handleSerial input st).1.readyToWrite = true)
    (hnew : drv.newCardPresent = true) (hread : drv.readCardSerial = true) :
    ((loop drv input st).2.2).filter isAuthCall =
      [DriverCall.authenticate 4, DriverCall.authenticate 8] := by
  simp [loop, cardCycle, hready, hnew, hread, List.filter_append,
        writeBlock_filter_auth, isAuthCall]

/-- Witness for C6: pending record, no new input, block-4 auth failing —
block 8 is still attempted after block 4. -/
theorem card_cycle_writes_block4_then_block8_witness :
    (handleSerial none stPending).1.readyToWrite = true ∧
    drvAuthFail.newCardPresent = true ∧ drvAuthFail.readCardSerial = true ∧
    ((loop drvAuthFail none stPending).2.2).filter isAuthCall =
      [DriverCall.authenticate 4, DriverCall.authenticate 8] :=
  ⟨rfl, rfl, rfl,
   card_cycle_writes_block4_then_block8 drvAuthFail none stPending rfl rfl rfl⟩

/-- C7: after a write attempt on a detected card (whatever each block's
outcome), `readyToWrite` is false, and any number of subsequent iterations
without a successfully parsed input line leave the state fixed and perform no
driver call — so each pending record yields at most one write attempt. -/
theorem write_attempt_resets_ready_no_retry (drv : Driver) (input : Option (List Char))
    (st : ProgState) (steps : List (Driver × Option (List Char)))
    (hready : (handleSerial input st).1.readyToWrite = true)
    (hnew : drv.newCardPresent = true) (hread : drv.readCardSerial = true)
    (hsteps : ∀ p ∈ steps, inputParses p.2 = false) :
    (loop drv input st).1.readyToWrite = false ∧
    runLoop steps (loop drv input st).1 = ((loop drv input st).1, [], []) := by
  have hfalse : (loop drv input st).1.readyToWrite = false := by
    simp [loop, cardCycle, hready, hnew, hread]
  exact ⟨hfalse, runLoop_no_pending steps _ hfalse hsteps⟩

/-- Witness for C7: a write attempt with failing auth, followed by two
iterations (no input, then an unparsable line) that do nothing. -/
theorem write_attempt_resets_ready_no_retry_witness :
    (handleSerial none stPending).1.readyToWrite = true ∧
    drvAuthFail.newCardPresent = true ∧ drvAuthFail.readCardSerial = true ∧
    (∀ p ∈ [(drvAllOK, (none : Option (List Char))),
            (drvAllOK, some ("NoColonHere".toList))], inputParses p.2 = false) ∧
    ((loop drvAuthFail none stPending).1.readyToWrite = false ∧
     runLoop [(drvAllOK, (none : Option (List Char))),
              (drvAllOK, some ("NoColonHere".toList))]
         (loop drvAuthFail none stPending).1 =
       ((loop drvAuthFail none stPending).1, [], [])) :=
  ⟨rfl, rfl, rfl, by decide,
   write_attempt_resets_ready_no_retry drvAuthFail none stPending
     [(drvAllOK, none), (drvAllOK, some ("NoColonHere".toList))] rfl rfl rfl (by decide)⟩

/-- C8 (counterexample): the trimmed line `a:b:` ends in `:`, yet parsing
succeeds — `readyToWrite` is set and, with a card present, a write is
attempted for that line — because the guard tests the position of the *first*
`:` only.  This refutes the claim for lines whose last character is `:` but
whose first `:` is interior. -/
theorem colon_last_but_parses_cex :
    (trim ("a:b:".toList)).getLast? = some ':' ∧
    (handleLine ("a:b:".toList) stIdle).1.readyToWrite = true ∧
    (handleLine ("a:b:".toList) stIdle).1.inputID = ['b', ':'] ∧
    DriverCall.mifareWrite 4 (getBytes (['a'].map Char.toNat) 16) ∈
      (loop drvAllOK (some ("a:b:".toList)) stIdle).2.2 := by
  refine ⟨by decide, rfl, by decide, by decide⟩

/-- C8 (amended): for every input line whose trimmed form has no `:`, or has
its first `:` at position 0, or has its first `:` as the last character,
parsing fails: `readyToWrite` is unchanged (in particular never newly set),
and the iteration is identical to one with no serial input at all — no write
is attempted for that line. -/
theorem invalid_line_ready_unchanged_no_write (raw : List Char) (st : ProgState)
    (drv : Driver)
    (h : ':' ∉ trim raw ∨ (trim raw).findIdx? (fun x => x == ':') = some 0 ∨
         (trim raw).findIdx? (fun x => x == ':') = some ((trim raw).length - 1)) :
    (handleLine raw st).1.readyToWrite = st.readyToWrite ∧
    loop drv (some raw) st = loop drv none st := by
  have hl := handleLine_not_parsed raw st (guard_false_of_invalid raw h)
  constructor
  · rw [hl]
  · simp [loop, handleSerial, hl]

/-- Witness for the amended C8 at the concrete line `Name:` (first `:` last). -/
theorem invalid_line_ready_unchanged_no_write_witness :
    (':' ∉ trim ("Name:".toList) ∨
     (trim ("Name:".toList)).findIdx? (fun x => x == ':') = some 0 ∨
     (trim ("Name:".toList)).findIdx? (fun x => x == ':') =
       some ((trim ("Name:".toList)).length - 1)) ∧
    ((handleLine ("Name:".toList) stIdle).1.readyToWrite = stIdle.readyToWrite ∧
     loop drvAllOK (some ("Name:".toList)) stIdle = loop drvAllOK none stIdle) :=
  ⟨Or.inr (Or.inr (by decide)),
   invalid_line_ready_unchanged_no_write ("Name:".toList) stIdle drvAllOK
     (Or.inr (Or.inr (by decide)))⟩

/-- C9: on every card-write cycle (pending record, card detected), the overall
success message and the re-prompt are printed for every driver outcome — the
per-block results of `writeBlock` never reach the caller, so the overall
report does not depend on them. -/
theorem success_message_unconditional (drv : Driver) (input : Option (List Char))
    (st : ProgState) (hready : (handleSerial input st).1.readyToWrite = true)
    (hnew : drv.newCardPresent = true) (hread : drv.readCardSerial = true) :
    "✅ Data written successfully!" ∈ (loop drv input st).2.1 ∧
    "Enter new NAME:ID for another card..." ∈ (loop drv input st).2.1 := by
  simp [loop, cardCycle, hready, hnew, hread]

/-- Witness for C9 with a driver that fails both authentications: the success
message and the re-prompt are still printed. -/
theorem success_message_unconditional_witness :
    (handleSerial none stPending).1.readyToWrite = true ∧
    drvAuthFail.newCardPresent = true ∧ drvAuthFail.readCardSerial = true ∧
    ("✅ Data written successfully!" ∈ (loop drvAuthFail none stPending).2.1 ∧
     "Enter new NAME:ID for another card..." ∈ (loop drvAuthFail none stPending).2.1) :=
  ⟨rfl, rfl, rfl,
   success_message_unconditional drvAuthFail none stPending rfl rfl rfl⟩

/-- C10: the inner invalid-format branch is dead code: for every line and
state, the serial block's output is either empty (outer guard rejected the
line) or starts with the capture banner (outer guard accepted it, and both
substrings around the first `:` are then automatically non-empty, so the inner
emptiness check always succeeds) — the warning is never printed. -/
theorem warning_branch_unreachable (raw : List Char) (st : ProgState) :
    (handleLine raw st).2 = [] ∨
    (handleLine raw st).2.head? = some "✅ Data captured:" := by
  cases hfind : (trim raw).findIdx? (fun x => x == ':') with
  | none =>
    left
    rw [handleLine_not_parsed raw st (by simp [indexOf, hfind])]
  | some i =>
    have hi : i < (trim raw).length :=
      (List.findIdx?_eq_some_iff_findIdx_eq.mp hfind).1
    by_cases h0 : 0 < i
    · by_cases h1 : i + 1 < (trim raw).length
      · right
        rw [handleLine_parsed raw st i hfind h0 h1]
        rfl
      · left
        rw [handleLine_not_parsed raw st ?_]
        simp only [indexOf, hfind]
        rintro ⟨-, hlt⟩
        omega
    · left
      rw [handleLine_not_parsed raw st ?_]
      simp only [indexOf, hfind]
      rintro ⟨hlt, -⟩
      omega
